import Mathlib

/-!
Shallow embedding of the tool-installation orchestration core of
`mcp-dev-env-setup` (TypeScript), covering:

* `src/utils/shell.ts` — `executeCommand`, `commandExists`, `getCommandVersion`,
  `getShellConfigPath`;
* `src/core/package-manager.ts` — `detectOS`, `detectPackageManager` and the
  package-manager descriptor table;
* `src/core/tool-config.ts` — the static `TOOL_CONFIGS` catalog and its
  accessors;
* `src/installers/unified-installer.ts` — `installTool`,
  `configureShellEnvironment`, `installMultipleTools`, `installNvm`,
  `installNodeViaTarget`;
* `src/validators/environment-validator.ts` — `checkToolInstalled`,
  `checkMultipleTools`, `checkAllTools`.

The effectful parts are modelled by explicit state passing.  A `World` carries
the number of shell invocations performed so far, the ordered log of executed
command strings, and the content of the user's shell profile file (the only
file the system writes).  The outcome of each shell invocation is supplied by
an oracle `Env : Nat → String → CommandResult` giving the result of running a
given command string as the k-th invocation of the process; this lets the
machine's observable state change over time (e.g. a tool becoming visible
after an install command).  File reads/appends are modelled as always
succeeding; the TypeScript "file does not exist" read error corresponds to the
profile being `none`.  Exceptions are not modelled: every embedded function is
total, matching the source's catch-all result contracts.
-/

namespace DevEnv

/-- Result of one shell invocation (`CommandResult` in `src/utils/shell.ts`).
`error` is `none` when the underlying exec did not fail with an exception
message; JavaScript string-falsiness of an empty `error` is handled at use
sites via `jsOr`. -/
structure CommandResult where
  stdout : String
  stderr : String
  success : Bool
  error : Option String := none
deriving Repr, DecidableEq

/-- Oracle describing the machine: the result of running a command string as
the k-th shell invocation of the process. -/
abbrev Env : Type := Nat → String → CommandResult

/-- Observable state threaded through the embedding: invocation counter,
ordered log of executed shell commands, and the shell profile file content
(`none` = file does not exist). -/
structure World where
  k : Nat
  log : List String
  profile : Option String
deriving Repr, DecidableEq

/-- State update performed by one shell invocation of command `c`. -/
def nextW (w : World) (c : String) : World :=
  ⟨w.k + 1, w.log ++ [c], w.profile⟩

/-- `executeCommand` from `src/utils/shell.ts`: runs one shell command,
returning its captured result and advancing the world. -/
def executeCommand (env : Env) (cmd : String) (w : World) : CommandResult × World :=
  (env w.k cmd, nextW w cmd)

/-- The boolean computed by `commandExists` from a probe's raw result:
`result.success && result.stdout.length > 0`. -/
def probeAt (env : Env) (k : Nat) (c : String) : Bool :=
  (env k ("which " ++ c)).success && decide (0 < (env k ("which " ++ c)).stdout.length)

/-- `commandExists` from `src/utils/shell.ts`: runs `which <c>` and reports
whether it succeeded with non-empty output. -/
def commandExists (env : Env) (c : String) (w : World) : Bool × World :=
  match executeCommand env ("which " ++ c) w with
  | (r, w1) => (r.success && decide (0 < r.stdout.length), w1)

theorem commandExists_eq (env : Env) (c : String) (w : World) :
    commandExists env c w = (probeAt env w.k c, nextW w ("which " ++ c)) := rfl

/-- Runs a list of commands in order, ignoring their results
(the shape of the source's best-effort loops). -/
def execList (env : Env) : List String → World → World
  | [], w => w
  | c :: cs, w => execList env cs (executeCommand env c w).2

/-- JavaScript `a || b` for an optional string `a`: an absent or empty string
falls through to `b`. -/
def jsOr (a : Option String) (b : String) : String :=
  match a with
  | some s => if s = "" then b else s
  | none => b

/-- Substring test on character lists: does `pat` occur contiguously in `s`? -/
def containsSub (pat : List Char) : List Char → Bool
  | [] => pat.isPrefixOf []
  | c :: rest => pat.isPrefixOf (c :: rest) || containsSub pat rest

/-- JavaScript `s.includes(pat)`. -/
def jsIncludes (s pat : String) : Bool :=
  containsSub pat.toList s.toList

/-- `OperatingSystem` enum from `src/core/package-manager.ts`. -/
inductive OperatingSystem where
  | macos
  | linux
  | windows
  | unknown
deriving Repr, DecidableEq

/-- `detectOS` from `src/core/package-manager.ts`, as a function of the
process platform string. -/
def detectOS (platform : String) : OperatingSystem :=
  if platform = "darwin" then .macos
  else if platform = "linux" then .linux
  else if platform = "win32" then .windows
  else .unknown

/-- `PackageManager` enum from `src/core/package-manager.ts`. -/
inductive PackageManager where
  | homebrew
  | apt
  | dnf
  | yum
  | pacman
  | zypper
  | unknown
deriving Repr, DecidableEq

/-- String value of each `PackageManager` enum member (TypeScript string
enums interpolate to these values). -/
def pmName : PackageManager → String
  | .homebrew => "homebrew"
  | .apt => "apt"
  | .dnf => "dnf"
  | .yum => "yum"
  | .pacman => "pacman"
  | .zypper => "zypper"
  | .unknown => "unknown"

/-- `PackageManagerInfo` from `src/core/package-manager.ts`. -/
structure PackageManagerInfo where
  name : PackageManager
  command : String
  installCmd : String
  updateCmd : String
  searchCmd : String
  available : Bool
deriving Repr, DecidableEq

/-- The `homebrew` entry of the `managers` record in `detectPackageManager`. -/
def homebrewInfo : PackageManagerInfo :=
  { name := .homebrew
    command := "brew"
    installCmd := "brew install"
    updateCmd := "brew update && brew upgrade"
    searchCmd := "brew search"
    available := false }

/-- The `apt` entry of the `managers` record in `detectPackageManager`. -/
def aptInfo : PackageManagerInfo :=
  { name := .apt
    command := "apt-get"
    installCmd := "sudo apt-get install -y"
    updateCmd := "sudo apt-get update && sudo apt-get upgrade -y"
    searchCmd := "apt-cache search"
    available := false }

/-- The `dnf` entry of the `managers` record in `detectPackageManager`. -/
def dnfInfo : PackageManagerInfo :=
  { name := .dnf
    command := "dnf"
    installCmd := "sudo dnf install -y"
    updateCmd := "sudo dnf update -y"
    searchCmd := "dnf search"
    available := false }

/-- The `yum` entry of the `managers` record in `detectPackageManager`. -/
def yumInfo : PackageManagerInfo :=
  { name := .yum
    command := "yum"
    installCmd := "sudo yum install -y"
    updateCmd := "sudo yum update -y"
    searchCmd := "yum search"
    available := false }

/-- The `pacman` entry of the `managers` record in `detectPackageManager`. -/
def pacmanInfo : PackageManagerInfo :=
  { name := .pacman
    command := "pacman"
    installCmd := "sudo pacman -S --noconfirm"
    updateCmd := "sudo pacman -Syu --noconfirm"
    searchCmd := "pacman -Ss"
    available := false }

/-- The `zypper` entry of the `managers` record in `detectPackageManager`. -/
def zypperInfo : PackageManagerInfo :=
  { name := .zypper
    command := "zypper"
    installCmd := "sudo zypper install -y"
    updateCmd := "sudo zypper update -y"
    searchCmd := "zypper search"
    available := false }

/-- The OS-ordered candidate list (`checkOrder`) of `detectPackageManager`,
with each name resolved through the `managers` record. -/
def pmCandidates : OperatingSystem → List PackageManagerInfo
  | .macos => [homebrewInfo]
  | .linux => [aptInfo, dnfInfo, yumInfo, pacmanInfo, zypperInfo]
  | _ => []

/-- The probing loop of `detectPackageManager`: check each candidate's
existence in order; the first available one is returned with
`available := true`. -/
def detectLoop (env : Env) : List PackageManagerInfo → World →
    Option PackageManagerInfo × World
  | [], w => (none, w)
  | m :: rest, w =>
    match commandExists env m.command w with
    | (avail, w1) =>
      if avail then (some { m with available := true }, w1)
      else detectLoop env rest w1

/-- `detectPackageManager` from `src/core/package-manager.ts`. -/
def detectPackageManager (env : Env) (platform : String) (w : World) :
    Option PackageManagerInfo × World :=
  detectLoop env (pmCandidates (detectOS platform)) w

/-- `ToolCategory` enum from `src/core/tool-config.ts`. -/
inductive ToolCategory where
  | language
  | runtime
  | sdk
  | packageManager
  | versionManager
deriving Repr, DecidableEq

/-- `InstallMethod` from `src/core/tool-config.ts`. -/
structure InstallMethod where
  packageManager : PackageManager
  packageName : String
  alternativeCommands : Option (List String) := none
  postInstallSteps : Option (List String) := none
deriving Repr, DecidableEq

/-- `ToolConfig` from `src/core/tool-config.ts`.  The `installMethods` record
and `envVars` record are modelled as association lists in source order. -/
structure ToolConfig where
  name : String
  displayName : String
  category : ToolCategory
  description : String
  commandToCheck : String
  versionFlag : String
  installMethods : List (String × InstallMethod)
  manualInstallUrl : Option String := none
  envVars : Option (List (String × String)) := none
  shellConfig : Option String := none
deriving Repr, DecidableEq

/-- The `python` entry of `TOOL_CONFIGS`. -/
def pythonConfig : ToolConfig :=
  { name := "python"
    displayName := "Python"
    category := .language
    description := "Python programming language"
    commandToCheck := "python3"
    versionFlag := "--version"
    installMethods :=
      [ ("homebrew",
          { packageManager := .homebrew
            packageName := "python@3"
            postInstallSteps := some ["python3 -m ensurepip --upgrade"] })
      , ("apt", { packageManager := .apt, packageName := "python3 python3-pip python3-venv" })
      , ("dnf", { packageManager := .dnf, packageName := "python3 python3-pip" })
      , ("yum", { packageManager := .yum, packageName := "python3 python3-pip" })
      , ("pacman", { packageManager := .pacman, packageName := "python python-pip" })
      , ("zypper", { packageManager := .zypper, packageName := "python3 python3-pip" }) ] }

/-- The `nodejs` entry of `TOOL_CONFIGS`. -/
def nodejsConfig : ToolConfig :=
  { name := "nodejs"
    displayName := "Node.js"
    category := .runtime
    description := "JavaScript runtime"
    commandToCheck := "node"
    versionFlag := "--version"
    installMethods :=
      [ ("homebrew", { packageManager := .homebrew, packageName := "node" })
      , ("apt",
          { packageManager := .apt
            packageName := "nodejs npm"
            alternativeCommands := some
              [ "curl -fsSL https://deb.nodesource.com/setup_lts.x | sudo -E bash -"
              , "sudo apt-get install -y nodejs" ] })
      , ("dnf", { packageManager := .dnf, packageName := "nodejs npm" })
      , ("yum",
          { packageManager := .yum
            packageName := "nodejs npm"
            alternativeCommands := some
              [ "curl -fsSL https://rpm.nodesource.com/setup_lts.x | sudo bash -"
              , "sudo yum install -y nodejs" ] })
      , ("pacman", { packageManager := .pacman, packageName := "nodejs npm" })
      , ("zypper", { packageManager := .zypper, packageName := "nodejs npm" }) ] }

/-- The `git` entry of `TOOL_CONFIGS`. -/
def gitConfig : ToolConfig :=
  { name := "git"
    displayName := "Git"
    category := .packageManager
    description := "Version control system"
    commandToCheck := "git"
    versionFlag := "--version"
    installMethods :=
      [ ("homebrew", { packageManager := .homebrew, packageName := "git" })
      , ("apt", { packageManager := .apt, packageName := "git" })
      , ("dnf", { packageManager := .dnf, packageName := "git" })
      , ("yum", { packageManager := .yum, packageName := "git" })
      , ("pacman", { packageManager := .pacman, packageName := "git" })
      , ("zypper", { packageManager := .zypper, packageName := "git" }) ] }

/-- Post-install steps shared by the Linux `docker` install methods. -/
def dockerPostInstall : List String :=
  [ "sudo systemctl start docker"
  , "sudo systemctl enable docker"
  , "sudo usermod -aG docker $USER" ]

/-- The `docker` entry of `TOOL_CONFIGS`. -/
def dockerConfig : ToolConfig :=
  { name := "docker"
    displayName := "Docker"
    category := .runtime
    description := "Container platform"
    commandToCheck := "docker"
    versionFlag := "--version"
    installMethods :=
      [ ("homebrew", { packageManager := .homebrew, packageName := "--cask docker" })
      , ("apt",
          { packageManager := .apt
            packageName := "docker.io docker-compose"
            postInstallSteps := some dockerPostInstall })
      , ("dnf",
          { packageManager := .dnf
            packageName := "docker docker-compose"
            postInstallSteps := some dockerPostInstall })
      , ("yum",
          { packageManager := .yum
            packageName := "docker docker-compose"
            postInstallSteps := some dockerPostInstall })
      , ("pacman",
          { packageManager := .pacman
            packageName := "docker docker-compose"
            postInstallSteps := some dockerPostInstall })
      , ("zypper",
          { packageManager := .zypper
            packageName := "docker docker-compose"
            postInstallSteps := some dockerPostInstall }) ]
    manualInstallUrl := some "https://docs.docker.com/engine/install/" }

/-- The `java` entry of `TOOL_CONFIGS`. -/
def javaConfig : ToolConfig :=
  { name := "java"
    displayName := "Java"
    category := .language
    description := "Java Development Kit"
    commandToCheck := "java"
    versionFlag := "-version"
    installMethods :=
      [ ("homebrew",
          { packageManager := .homebrew
            packageName := "openjdk@17"
            postInstallSteps := some
              [ "sudo ln -sfn /opt/homebrew/opt/openjdk@17/libexec/openjdk.jdk /Library/Java/JavaVirtualMachines/openjdk-17.jdk" ] })
      , ("apt", { packageManager := .apt, packageName := "openjdk-17-jdk" })
      , ("dnf", { packageManager := .dnf, packageName := "java-17-openjdk-devel" })
      , ("yum", { packageManager := .yum, packageName := "java-17-openjdk-devel" })
      , ("pacman", { packageManager := .pacman, packageName := "jdk17-openjdk" })
      , ("zypper", { packageManager := .zypper, packageName := "java-17-openjdk-devel" }) ]
    envVars := some [("JAVA_HOME", "/usr/lib/jvm/java-17-openjdk")] }

/-- The `go` entry of `TOOL_CONFIGS`. -/
def goConfig : ToolConfig :=
  { name := "go"
    displayName := "Go"
    category := .language
    description := "Go programming language"
    commandToCheck := "go"
    versionFlag := "version"
    installMethods :=
      [ ("homebrew", { packageManager := .homebrew, packageName := "go" })
      , ("apt", { packageManager := .apt, packageName := "golang" })
      , ("dnf", { packageManager := .dnf, packageName := "golang" })
      , ("yum", { packageManager := .yum, packageName := "golang" })
      , ("pacman", { packageManager := .pacman, packageName := "go" })
      , ("zypper", { packageManager := .zypper, packageName := "go" }) ]
    envVars := some [("GOPATH", "$HOME/go"), ("PATH", "$PATH:$GOPATH/bin")] }

/-- The `rust` entry of `TOOL_CONFIGS`. -/
def rustConfig : ToolConfig :=
  { name := "rust"
    displayName := "Rust"
    category := .language
    description := "Rust programming language"
    commandToCheck := "rustc"
    versionFlag := "--version"
    installMethods :=
      [ ("homebrew", { packageManager := .homebrew, packageName := "rust" })
      , ("apt",
          { packageManager := .apt
            packageName := "curl build-essential"
            alternativeCommands := some
              [ "curl --proto \"=https\" --tlsv1.2 -sSf https://sh.rustup.rs | sh -s -- -y" ] })
      , ("dnf", { packageManager := .dnf, packageName := "rust cargo" })
      , ("yum", { packageManager := .yum, packageName := "rust cargo" })
      , ("pacman", { packageManager := .pacman, packageName := "rust" })
      , ("zypper", { packageManager := .zypper, packageName := "rust cargo" }) ]
    shellConfig := some "source $HOME/.cargo/env" }

/-- Alternate install command shared by the Linux `flutter` install methods. -/
def flutterClone : List String :=
  ["git clone https://github.com/flutter/flutter.git -b stable $HOME/development/flutter"]

/-- The `flutter` entry of `TOOL_CONFIGS`. -/
def flutterConfig : ToolConfig :=
  { name := "flutter"
    displayName := "Flutter"
    category := .sdk
    description := "Flutter SDK for mobile development"
    commandToCheck := "flutter"
    versionFlag := "--version"
    installMethods :=
      [ ("homebrew", { packageManager := .homebrew, packageName := "--cask flutter" })
      , ("apt",
          { packageManager := .apt
            packageName := "git curl unzip"
            alternativeCommands := some flutterClone })
      , ("dnf",
          { packageManager := .dnf
            packageName := "git curl unzip"
            alternativeCommands := some flutterClone })
      , ("yum",
          { packageManager := .yum
            packageName := "git curl unzip"
            alternativeCommands := some flutterClone })
      , ("pacman", { packageManager := .pacman, packageName := "flutter" })
      , ("zypper",
          { packageManager := .zypper
            packageName := "git curl unzip"
            alternativeCommands := some flutterClone }) ]
    envVars := some [("PATH", "$PATH:$HOME/development/flutter/bin")]
    manualInstallUrl := some "https://flutter.dev/docs/get-started/install" }

/-- `TOOL_CONFIGS` from `src/core/tool-config.ts`, in source key order. -/
def TOOL_CONFIGS : List (String × ToolConfig) :=
  [ ("python", pythonConfig)
  , ("nodejs", nodejsConfig)
  , ("git", gitConfig)
  , ("docker", dockerConfig)
  , ("java", javaConfig)
  , ("go", goConfig)
  , ("rust", rustConfig)
  , ("flutter", flutterConfig) ]

/-- `getToolConfig` from `src/core/tool-config.ts`. -/
def getToolConfig (toolName : String) : Option ToolConfig :=
  TOOL_CONFIGS.lookup toolName

/-- `getAllToolNames` from `src/core/tool-config.ts` (`Object.keys` in
insertion order). -/
def getAllToolNames : List String :=
  TOOL_CONFIGS.map Prod.fst

/-- `InstallResult` from `src/installers/unified-installer.ts`.  `details` and
`needsRestart` are `none` when the source leaves the optional field unset. -/
structure InstallResult where
  success : Bool
  message : String
  details : Option String := none
  needsRestart : Option Bool := none
deriving Repr, DecidableEq

/-- The configuration text block built by `configureShellEnvironment`:
a marker comment plus `export` lines when `envVars` is present, followed by
the raw `shellConfig` snippet when present. -/
def buildConfigContent (cfg : ToolConfig) : String :=
  (match cfg.envVars with
   | some vars =>
     "\n# " ++ cfg.displayName ++ " Configuration\n" ++
       String.join (vars.map (fun kv => "export " ++ kv.1 ++ "=\"" ++ kv.2 ++ "\"\n"))
   | none => "") ++
  (match cfg.shellConfig with
   | some s => s ++ "\n"
   | none => "")

/-- `configureShellEnvironment` from `src/installers/unified-installer.ts`,
acting on the shell profile file content (`none` = file absent, read as empty
content).  Returns whether a write occurred and the new content.  File-system
errors are not modelled (reads of a missing file already map to `none`). -/
def configureShellEnvironment (cfg : ToolConfig) (profile : Option String) :
    Bool × Option String :=
  let configContent := buildConfigContent cfg
  if configContent = "" then (false, profile)
  else
    let existingContent := profile.getD ""
    if jsIncludes existingContent ("# " ++ cfg.displayName ++ " Configuration") then
      (false, profile)
    else
      (true, some (existingContent ++ configContent))

/-- The alternative-command loop of `installTool` (lines trying each entry of
`alternativeCommands` in order, stopping at the first success and capturing
its stdout). -/
def tryAlternatives (env : Env) : List String → World → Option String × World
  | [], w => (none, w)
  | c :: cs, w =>
    match executeCommand env c w with
    | (r, w1) => if r.success then (some r.stdout, w1) else tryAlternatives env cs w1

/-- The post-install phase of `installTool`: run every `postInstallSteps`
entry sequentially, ignoring individual outcomes. -/
def postWorld (env : Env) (im : InstallMethod) (w : World) : World :=
  match im.postInstallSteps with
  | some steps => execList env steps w
  | none => w

/-- The shell-configuration phase of `installTool`: when the tool carries a
`shellConfig` or `envVars`, invoke `configureShellEnvironment` on the profile
file; its return value feeds `needsRestart`. -/
def shellStep (cfg : ToolConfig) (w : World) : Bool × World :=
  if cfg.shellConfig.isSome || cfg.envVars.isSome then
    match configureShellEnvironment cfg w.profile with
    | (b, p) => (b, ⟨w.k, w.log, p⟩)
  else (false, w)

/-- The tail of `installTool` after the install commands succeeded with
captured output `installDetails`: post-install steps, shell configuration,
and final verification. -/
def afterInstall (env : Env) (cfg : ToolConfig) (im : InstallMethod)
    (installDetails : String) (w : World) : InstallResult × World :=
  match shellStep cfg (postWorld env im w) with
  | (needsRestart, w6) =>
    match commandExists env cfg.commandToCheck w6 with
    | (verified, w7) =>
      if verified || needsRestart then
        ({ success := true
           message := cfg.displayName ++ " installed successfully"
           details := some installDetails
           needsRestart := some needsRestart }, w7)
      else
        ({ success := false
           message := cfg.displayName ++ " installation completed but verification failed"
           details := some "The tool may require a shell restart to be available"
           needsRestart := some true }, w7)

/-- `installTool` from `src/installers/unified-installer.ts`:
resolve the catalog entry, short-circuit when already installed, select a
package manager, look up the install method, run the primary install command
with alternative-command fallback, then hand over to `afterInstall`. -/
def installTool (env : Env) (platform : String) (toolName : String) (w : World) :
    InstallResult × World :=
  match getToolConfig toolName with
  | none => ({ success := false, message := "Unknown tool: " ++ toolName }, w)
  | some cfg =>
    match commandExists env cfg.commandToCheck w with
    | (true, w1) =>
      ({ success := true, message := cfg.displayName ++ " is already installed" }, w1)
    | (false, w1) =>
      match detectPackageManager env platform w1 with
      | (none, w2) =>
        ({ success := false
           message := "No package manager available. Please install a package manager first." }, w2)
      | (some pm, w2) =>
        match cfg.installMethods.lookup (pmName pm.name) with
        | none =>
          ({ success := false
             message := cfg.displayName ++ " installation not supported on " ++ pmName pm.name
             details := cfg.manualInstallUrl.map
               (fun u => "Please install manually: " ++ u) }, w2)
        | some im =>
          match executeCommand env (pm.installCmd ++ " " ++ im.packageName) w2 with
          | (packageResult, w3) =>
            match (if packageResult.success then (some packageResult.stdout, w3)
                   else match im.alternativeCommands with
                        | some alts => tryAlternatives env alts w3
                        | none => (none, w3)) with
            | (none, w4) =>
              ({ success := false
                 message := "Failed to install " ++ cfg.displayName
                 details := some (jsOr packageResult.error packageResult.stderr) }, w4)
            | (some installDetails, w4) => afterInstall env cfg im installDetails w4

/-- JavaScript object assignment `m[k] = v` on an association list: replaces
the value at an existing key in place, otherwise appends a new entry. -/
def setKey (m : List (String × InstallResult)) (key : String) (v : InstallResult) :
    List (String × InstallResult) :=
  match m with
  | [] => [(key, v)]
  | (k2, v2) :: rest => if k2 = key then (key, v) :: rest else (k2, v2) :: setKey rest key v

/-- The accumulation loop of `installMultipleTools`. -/
def installMultipleToolsAux (env : Env) (platform : String) :
    List String → List (String × InstallResult) → World →
    List (String × InstallResult) × World
  | [], acc, w => (acc, w)
  | n :: rest, acc, w =>
    match installTool env platform n w with
    | (r, w1) => installMultipleToolsAux env platform rest (setKey acc n r) w1

/-- `installMultipleTools` from `src/installers/unified-installer.ts`:
runs `installTool` for each requested name in order, collecting results in a
name-keyed record. -/
def installMultipleTools (env : Env) (platform : String) (toolNames : List String)
    (w : World) : List (String × InstallResult) × World :=
  installMultipleToolsAux env platform toolNames [] w

/-- Specification-side sequential trace: the list of (name, result) pairs
produced by running `installTool` once per input name, in input order, in the
same world sequence as `installMultipleTools`.  This is the spec's
"runs installTool for each name sequentially, independently" reading, used to
compare against the record built by `installMultipleTools`. -/
def runSeq (env : Env) (platform : String) :
    List String → World → List (String × InstallResult) × World
  | [], w => ([], w)
  | n :: rest, w =>
    match installTool env platform n w with
    | (r, w1) =>
      match runSeq env platform rest w1 with
      | (ps, w2) => ((n, r) :: ps, w2)

/-- The nvm bootstrap block appended by `installNvm` (template literal in the
source). -/
def nvmConfigBlock : String :=
  "\n# NVM Configuration\nexport NVM_DIR=\"$HOME/.nvm\"\n[ -s \"$NVM_DIR/nvm.sh\" ] && \\. \"$NVM_DIR/nvm.sh\"\n[ -s \"$NVM_DIR/bash_completion\" ] && \\. \"$NVM_DIR/bash_completion\"\n"

/-- The bootstrap command run by `installNvm`. -/
def nvmInstallCommand : String :=
  "curl -o- https://raw.githubusercontent.com/nvm-sh/nvm/v0.39.7/install.sh | bash"

/-- `installNvm` from `src/installers/unified-installer.ts`: if nvm is absent,
run the bootstrap script, add the nvm block to the shell profile unless a
`NVM_DIR` line is already there (a missing profile file is created with the
block), then report success with `needsRestart` regardless of the bootstrap
command's outcome. -/
def installNvm (env : Env) (w : World) : InstallResult × World :=
  match commandExists env "nvm" w with
  | (true, w1) => ({ success := true, message := "nvm is already installed" }, w1)
  | (false, w1) =>
    match executeCommand env nvmInstallCommand w1 with
    | (result, w2) =>
      let w3 :=
        match w2.profile with
        | some content =>
          if jsIncludes content "NVM_DIR" then w2
          else { w2 with profile := some (content ++ nvmConfigBlock) }
        | none => { w2 with profile := some nvmConfigBlock }
      ({ success := true
         message := "nvm installed successfully"
         details := some result.stdout
         needsRestart := some true }, w3)

/-- `installNodeViaTarget` from `src/installers/unified-installer.ts`.
`nvmDirEnv` models `process.env.NVM_DIR` and `home` the user's home
directory. -/
def installNodeViaTarget (env : Env) (platform : String) (nvmDirEnv : Option String)
    (home : String) (version : String) (w : World) : InstallResult × World :=
  match commandExists env "node" w with
  | (true, w1) => ({ success := true, message := "Node.js is already installed" }, w1)
  | (false, w1) =>
    match commandExists env "nvm" w1 with
    | (nvmExists, w2) =>
      let branch : (World × Option InstallResult) :=
        if nvmExists then (w2, none)
        else
          match installNvm env w2 with
          | (nvmResult, w3) =>
            if nvmResult.success then (w3, none)
            else
              match installTool env platform "nodejs" w3 with
              | (fb, w4) => (w4, some fb)
      match branch with
      | (w3, some fb) => (fb, w3)
      | (w3, none) =>
        let nvmDir := jsOr nvmDirEnv (home ++ "/.nvm")
        let cmd := "bash -c \"source " ++ nvmDir ++ "/nvm.sh && nvm install " ++
          version ++ " && nvm use " ++ version ++ "\""
        match executeCommand env cmd w3 with
        | (result, w4) =>
          if result.success then
            ({ success := true
               message := "Node.js " ++ version ++ " installed successfully via nvm"
               details := some result.stdout }, w4)
          else
            match commandExists env "node" w4 with
            | (nodeNow, w5) =>
              if nodeNow then
                ({ success := true
                   message := "Node.js " ++ version ++ " installed successfully via nvm"
                   details := some result.stdout }, w5)
              else
                ({ success := false
                   message := "Failed to install Node.js via nvm"
                   details := some (jsOr result.error result.stderr) }, w5)

/-- Variant of `installNodeViaTarget` with the package-manager fallback branch
(the code run only when the nvm bootstrap result has `success = false`)
deleted.  Used to state that that branch is unreachable. -/
def installNodeViaTargetNoFallback (env : Env) (_platform : String)
    (nvmDirEnv : Option String) (home : String) (version : String) (w : World) :
    InstallResult × World :=
  match commandExists env "node" w with
  | (true, w1) => ({ success := true, message := "Node.js is already installed" }, w1)
  | (false, w1) =>
    match commandExists env "nvm" w1 with
    | (nvmExists, w2) =>
      let w3 := if nvmExists then w2 else (installNvm env w2).2
      let nvmDir := jsOr nvmDirEnv (home ++ "/.nvm")
      let cmd := "bash -c \"source " ++ nvmDir ++ "/nvm.sh && nvm install " ++
        version ++ " && nvm use " ++ version ++ "\""
      match executeCommand env cmd w3 with
      | (result, w4) =>
        if result.success then
          ({ success := true
             message := "Node.js " ++ version ++ " installed successfully via nvm"
             details := some result.stdout }, w4)
        else
          match commandExists env "node" w4 with
          | (nodeNow, w5) =>
            if nodeNow then
              ({ success := true
                 message := "Node.js " ++ version ++ " installed successfully via nvm"
                 details := some result.stdout }, w5)
            else
              ({ success := false
                 message := "Failed to install Node.js via nvm"
                 details := some (jsOr result.error result.stderr) }, w5)

/-- `ToolStatus` from `src/validators/environment-validator.ts` (the `path`
field is declared in the source but never assigned, so it is omitted). -/
structure ToolStatus where
  name : String
  displayName : String
  installed : Bool
  version : Option String := none
deriving Repr, DecidableEq

/-- `commandExists` as used by the validator: each concurrent probe task runs
against its own view of the machine, modelled by a per-task oracle
`run : String → CommandResult`. -/
def commandExistsQ (run : String → CommandResult) (c : String) : Bool :=
  (run ("which " ++ c)).success && decide (0 < (run ("which " ++ c)).stdout.length)

/-- JavaScript `s.split('\n')[0]`. -/
def firstLine (s : String) : String :=
  (s.splitOn "\n").headD ""

/-- `getCommandVersion` from `src/utils/shell.ts` under a per-task oracle:
first line of stdout on success, `none` on failure. -/
def getCommandVersionQ (run : String → CommandResult) (c flag : String) : Option String :=
  let r := run (c ++ " " ++ flag)
  if r.success then some (firstLine r.stdout) else none

/-- `checkToolInstalled` from `src/validators/environment-validator.ts`:
an unknown name yields a negative `ToolStatus` echoing the requested name;
otherwise the verify command is probed and, when installed, its version
resolved (`version || undefined` maps an empty version to an unset field). -/
def checkToolInstalled (run : String → CommandResult) (toolName : String) : ToolStatus :=
  match getToolConfig toolName with
  | none => { name := toolName, displayName := toolName, installed := false }
  | some cfg =>
    let installed := commandExistsQ run cfg.commandToCheck
    let version :=
      if installed then getCommandVersionQ run cfg.commandToCheck cfg.versionFlag
      else none
    { name := cfg.name
      displayName := cfg.displayName
      installed := installed
      version := match version with
                 | some s => if s = "" then none else some s
                 | none => none }

/-- `checkMultipleTools` from `src/validators/environment-validator.ts`:
`Promise.all` over one probe task per name; task `i` runs against oracle
`env i` and its status is placed at index `i` of the result. -/
def checkMultipleTools (env : Nat → String → CommandResult) (toolNames : List String) :
    List ToolStatus :=
  toolNames.enum.map (fun p => checkToolInstalled (env p.1) p.2)

/-- `checkAllTools` from `src/validators/environment-validator.ts`. -/
def checkAllTools (env : Nat → String → CommandResult) : List ToolStatus :=
  checkMultipleTools env getAllToolNames

/-- An execution schedule for the concurrent probe tasks of
`checkMultipleTools`: tasks complete in the order listed in `sched`, each
carrying its task index. -/
def runScheduled (env : Nat → String → CommandResult) (toolNames : List String)
    (sched : List Nat) : List (Nat × ToolStatus) :=
  sched.map (fun i => (i, checkToolInstalled (env i) (toolNames.getD i "")))

/-- Reassembly of concurrently completed probe results into index order, as
`Promise.all` does. -/
def assemble (pairs : List (Nat × ToolStatus)) (n : Nat) : List (Option ToolStatus) :=
  (List.range n).map (fun i => (pairs.find? (fun p => p.1 == i)).map Prod.snd)

/-- `getShellConfigPath` from `src/utils/shell.ts` (lines 101-117 of the
current shell module): a pure function of the active shell name, the home
directory and the OS family. -/
def getShellConfigPath (shell home : String) (isMacOS : Bool) : String :=
  if jsIncludes shell "zsh" then home ++ "/.zshrc"
  else if jsIncludes shell "bash" then
    if isMacOS then home ++ "/.bash_profile" else home ++ "/.bashrc"
  else home ++ "/.profile"

/-- Did every command in the list fail when executed in sequence from `w`?
Mirrors the situation in which the alternative-command loop falls through. -/
def allFailB (env : Env) : List String → World → Bool
  | [], _ => true
  | c :: cs, w => (!(env w.k c).success) && allFailB env cs (nextW w c)

/-- Concrete machine for the C4 witness: yum and pacman both exist, earlier
candidates do not. -/
def envTwoPMs : Env := fun _ c =>
  if c = "which yum" ∨ c = "which pacman" then ⟨"found", "", true, none⟩
  else ⟨"", "", false, none⟩

/-- Concrete machine for the C2 witness: the initial probe fails, the package
manager exists, the primary install command and the first alternative fail,
and everything afterwards (the second alternative and the final verification)
succeeds with stdout "altok". -/
def envAlt : Env := fun k _ =>
  if k = 2 then ⟨"", "errtext", false, some "boom"⟩
  else if k = 0 ∨ k = 3 then ⟨"", "", false, none⟩
  else ⟨"altok", "", true, none⟩

/-- Concrete machine for the C7 witness: the initial probe fails and every
later command succeeds with stdout "x". -/
def envGit : Env := fun k _ =>
  if k = 0 then ⟨"", "", false, none⟩ else ⟨"x", "", true, none⟩

/-! ## Theorems -/

/-- C9: getShellConfigPath is a pure function of the active shell name, home
directory and OS family: a shell containing "zsh" maps to ~/.zshrc; otherwise
a shell containing "bash" maps to ~/.bash_profile on macOS and ~/.bashrc
elsewhere; any other shell value maps to ~/.profile. -/
theorem getShellConfigPath_spec (shell home : String) (mac : Bool) :
    (jsIncludes shell "zsh" = true →
      getShellConfigPath shell home mac = home ++ "/.zshrc")
    ∧ (jsIncludes shell "zsh" = false → jsIncludes shell "bash" = true →
        getShellConfigPath shell home mac =
          if mac then home ++ "/.bash_profile" else home ++ "/.bashrc")
    ∧ (jsIncludes shell "zsh" = false → jsIncludes shell "bash" = false →
        getShellConfigPath shell home mac = home ++ "/.profile") := by
  refine ⟨?_, ?_, ?_⟩
  · intro h1
    simp [getShellConfigPath, h1]
  · intro h1 h2
    simp [getShellConfigPath, h1, h2]
  · intro h1 h2
    simp [getShellConfigPath, h1, h2]

/-- Witness for C9 at a concrete zsh shell value. -/
theorem getShellConfigPath_spec_witness :
    jsIncludes "/bin/zsh" "zsh" = true ∧
      getShellConfigPath "/bin/zsh" "/home/u" false = "/home/u/.zshrc" :=
  ⟨by decide, (getShellConfigPath_spec "/bin/zsh" "/home/u" false).1 (by decide)⟩

/-- C5: for a tool name not in the catalog, installTool fails with no shell
invocation (the world is returned unchanged) and checkToolInstalled returns a
negative ToolStatus echoing the requested name in both name fields. -/
theorem unknownTool_spec (env : Env) (run : String → CommandResult)
    (platform toolName : String) (w : World)
    (h : getToolConfig toolName = none) :
    installTool env platform toolName w
      = ({ success := false, message := "Unknown tool: " ++ toolName }, w)
    ∧ checkToolInstalled run toolName
      = { name := toolName, displayName := toolName, installed := false } := by
  constructor
  · simp [installTool, h]
  · simp [checkToolInstalled, h]

/-- Witness for C5 at the unknown name "cobol". -/
theorem unknownTool_spec_witness :
    getToolConfig "cobol" = none ∧
      installTool (fun _ _ => ⟨"", "", false, none⟩) "linux" "cobol" ⟨0, [], none⟩
        = ({ success := false, message := "Unknown tool: cobol" }, ⟨0, [], none⟩) :=
  ⟨rfl, (unknownTool_spec (fun _ _ => ⟨"", "", false, none⟩)
    (fun _ => ⟨"", "", false, none⟩) "linux" "cobol" ⟨0, [], none⟩ rfl).1⟩

/-- C3: for a cataloged tool whose existence probe already reports true,
installTool returns success and the only shell command executed is that
probe. -/
theorem installTool_shortCircuit (env : Env) (platform toolName : String)
    (cfg : ToolConfig) (w : World)
    (h1 : getToolConfig toolName = some cfg)
    (h2 : probeAt env w.k cfg.commandToCheck = true) :
    installTool env platform toolName w
      = ({ success := true, message := cfg.displayName ++ " is already installed" },
         ⟨w.k + 1, w.log ++ ["which " ++ cfg.commandToCheck], w.profile⟩) := by
  have hce : commandExists env cfg.commandToCheck w
      = (true, nextW w ("which " ++ cfg.commandToCheck)) := by
    rw [commandExists_eq, h2]
  simp [installTool, h1, hce, nextW]

/-- Witness for C3: python already installed. -/
theorem installTool_shortCircuit_witness :
    probeAt (fun _ _ => ⟨"ok", "", true, none⟩) 0 "python3" = true ∧
      installTool (fun _ _ => ⟨"ok", "", true, none⟩) "linux" "python" ⟨0, [], none⟩
        = ({ success := true, message := "Python is already installed" },
           ⟨1, ["which python3"], none⟩) :=
  ⟨rfl, installTool_shortCircuit (fun _ _ => ⟨"ok", "", true, none⟩) "linux" "python"
    pythonConfig ⟨0, [], none⟩ rfl rfl⟩

/-- C1: evaluation of the code at the failing input.  The rust descriptor
carries only a shellConfig snippet and no environment variables, so the
marker comment is never written; starting from an empty profile, the first
configurator call writes the snippet and returns true, and the second call
writes it AGAIN and returns true, leaving two occurrences — the claimed
idempotence (second call returns false, exactly one occurrence) fails. -/
theorem configureShellEnvironment_rust_duplicates :
    ((getToolConfig "rust").map (fun cfg =>
      ((configureShellEnvironment cfg (some "")).1,
       (configureShellEnvironment cfg (configureShellEnvironment cfg (some "")).2).1,
       (configureShellEnvironment cfg (configureShellEnvironment cfg (some "")).2).2)))
    = some (true, true, some "source $HOME/.cargo/env\nsource $HOME/.cargo/env\n") := by
  decide

/-- Helper: installNvm always reports success. -/
theorem installNvm_success (env : Env) (w : World) :
    (installNvm env w).1.success = true := by
  rcases h : commandExists env "nvm" w with ⟨b, w1⟩
  unfold installNvm
  rw [h]
  cases b <;> simp

/-- C10: installNvm returns success for every outcome of the bootstrap
command, with requiresShellRestart set whenever nvm was not already present;
consequently the package-manager fallback branch of installNodeViaTarget,
guarded by the nvm bootstrap result being a failure, is unreachable: the
function coincides with its fallback-free variant. -/
theorem installNvm_neverFails (env : Env) (platform : String)
    (nvmDirEnv : Option String) (home version : String) (w : World) :
    (installNvm env w).1.success = true
    ∧ ((commandExists env "nvm" w).1 = false →
        (installNvm env w).1.needsRestart = some true
        ∧ (installNvm env w).1.success = true)
    ∧ installNodeViaTarget env platform nvmDirEnv home version w
        = installNodeViaTargetNoFallback env platform nvmDirEnv home version w := by
  refine ⟨installNvm_success env w, ?_, ?_⟩
  · intro hno
    rcases h : commandExists env "nvm" w with ⟨b, w1⟩
    rw [h] at hno
    subst hno
    unfold installNvm
    rw [h]
    simp
  · unfold installNodeViaTarget installNodeViaTargetNoFallback
    rcases h1 : commandExists env "node" w with ⟨b1, w1⟩
    cases b1
    · rcases h2 : commandExists env "nvm" w1 with ⟨b2, w2⟩
      cases b2
      · have hs := installNvm_success env w2
        rcases h3 : installNvm env w2 with ⟨r, w3⟩
        rw [h3] at hs
        have hs2 : r.success = true := hs
        simp [h1, h2, h3, hs2]
      · simp [h1, h2]
    · simp [h1]

/-- Witness for C10: when nvm is absent, the result demands a shell restart. -/
theorem installNvm_neverFails_witness :
    (commandExists (fun _ _ => ⟨"", "", false, none⟩) "nvm" ⟨0, [], none⟩).1 = false
    ∧ (installNvm (fun _ _ => ⟨"", "", false, none⟩) ⟨0, [], none⟩).1.needsRestart = some true :=
  ⟨rfl, ((installNvm_neverFails (fun _ _ => ⟨"", "", false, none⟩) "linux" none "/h" "lts"
    ⟨0, [], none⟩).2.1 rfl).1⟩

/-- Helper for C4: under a time-stable environment, the detection loop returns
the first candidate whose existence probe succeeds, marked available. -/
theorem detectLoop_stable (env : Env)
    (hst : ∀ k c, probeAt env k c = probeAt env 0 c) :
    ∀ (l : List PackageManagerInfo) (w : World),
    (detectLoop env l w).1
      = (l.find? (fun m => probeAt env 0 m.command)).map
          (fun m => { m with available := true }) := by
  intro l
  induction l with
  | nil => intro w; simp [detectLoop]
  | cons m rest ih =>
    intro w
    simp only [detectLoop, commandExists_eq, hst w.k m.command]
    cases h : probeAt env 0 m.command
    · rw [List.find?_cons_of_neg _ (by simp [h])]
      simp [h, ih]
    · rw [List.find?_cons_of_pos _ (by simp [h])]
      simp [h]

/-- C4: detectPackageManager probes the fixed OS-ordered candidate list
(macOS has homebrew only; Linux has apt, dnf, yum, pacman, zypper in that
order; other OS families have an empty list and yield none with no probe),
returning the first candidate whose probe succeeds, fully populated with
isAvailable set, and none when the list is exhausted; under a stable
environment the selection ignores the starting state, so two coexisting
candidates always resolve deterministically to the earlier one. -/
theorem detectPackageManager_spec (env : Env) (platform : String) (w : World)
    (hst : ∀ k c, probeAt env k c = probeAt env 0 c) :
    (detectPackageManager env platform w).1
      = ((pmCandidates (detectOS platform)).find? (fun m => probeAt env 0 m.command)).map
          (fun m => { m with available := true })
    ∧ pmCandidates OperatingSystem.macos = [homebrewInfo]
    ∧ pmCandidates OperatingSystem.linux = [aptInfo, dnfInfo, yumInfo, pacmanInfo, zypperInfo]
    ∧ (detectOS platform = OperatingSystem.windows ∨ detectOS platform = OperatingSystem.unknown →
        detectPackageManager env platform w = (none, w)) := by
  refine ⟨detectLoop_stable env hst _ w, rfl, rfl, ?_⟩
  intro h
  rcases h with h | h <;> simp [detectPackageManager, h, pmCandidates, detectLoop]

/-- Witness for C4: with yum and pacman both present on Linux, the earlier
candidate yum is selected, marked available. -/
theorem detectPackageManager_spec_witness :
    (detectPackageManager envTwoPMs "linux" ⟨0, [], none⟩).1
      = some { yumInfo with available := true } := by
  have h := (detectPackageManager_spec envTwoPMs "linux" ⟨0, [], none⟩ (fun _ _ => rfl)).1
  rw [h]
  decide

/-- Helper for C6: lookup after a JavaScript-style keyed assignment. -/
theorem lookup_setKey (m : List (String × InstallResult)) (key : String)
    (v : InstallResult) (n : String) :
    (setKey m key v).lookup n = if n = key then some v else m.lookup n := by
  induction m with
  | nil =>
    by_cases h : n = key
    · subst h; simp [setKey]
    · simp [setKey, List.lookup_cons, beq_false_of_ne h, h]
  | cons hd tl ih =>
    obtain ⟨k2, v2⟩ := hd
    by_cases h2 : k2 = key
    · subst h2
      by_cases h : n = k2
      · subst h; simp [setKey]
      · simp [setKey, List.lookup_cons, beq_false_of_ne h, h]
    · by_cases h : n = k2
      · subst h
        simp [setKey, h2]
      · simp [setKey, h2, List.lookup_cons, beq_false_of_ne h, ih]

/-- Helper for C6: lookup distributes over append, preferring the left list. -/
theorem lookup_append_ir (l1 l2 : List (String × InstallResult)) (n : String) :
    (l1 ++ l2).lookup n = (l1.lookup n).orElse (fun _ => l2.lookup n) := by
  induction l1 with
  | nil => simp [Option.orElse]
  | cons hd tl ih =>
    obtain ⟨k, v⟩ := hd
    by_cases h : n = k
    · subst h
      simp [List.lookup_cons, Option.orElse]
    · simp [List.lookup_cons, beq_false_of_ne h, ih]

/-- Helper for C6: a key occurring in an association list has a lookup hit. -/
theorem lookup_isSome_of_mem (l : List (String × InstallResult)) (n : String)
    (h : n ∈ l.map Prod.fst) : (l.lookup n).isSome = true := by
  induction l with
  | nil => simp at h
  | cons hd tl ih =>
    obtain ⟨k, v⟩ := hd
    by_cases hk : n = k
    · subst hk
      simp
    · rw [List.map_cons] at h
      rcases List.mem_cons.mp h with h1 | h1
      · exact absurd h1 hk
      · simp [List.lookup_cons, beq_false_of_ne hk, ih h1]

/-- Helper for C6: the record built by the accumulation loop agrees with the
last-written entry of the sequential trace, falling back to the initial
accumulator for unseen keys, and both traverse the same world sequence. -/
theorem installMultipleToolsAux_spec (env : Env) (platform : String) :
    ∀ (names : List String) (acc : List (String × InstallResult)) (w : World),
    (installMultipleToolsAux env platform names acc w).2 = (runSeq env platform names w).2
    ∧ ∀ n, (installMultipleToolsAux env platform names acc w).1.lookup n
        = ((runSeq env platform names w).1.reverse.lookup n).orElse (fun _ => acc.lookup n) := by
  intro names
  induction names with
  | nil =>
    intro acc w
    simp [installMultipleToolsAux, runSeq, List.lookup, Option.orElse]
  | cons hd tl ih =>
    intro acc w
    rcases h1 : installTool env platform hd w with ⟨r, w1⟩
    rcases h2 : runSeq env platform tl w1 with ⟨ps, w2⟩
    have ihh := ih (setKey acc hd r) w1
    constructor
    · simp only [installMultipleToolsAux, runSeq, h1, h2]
      rw [ihh.1, h2]
    · intro n
      simp only [installMultipleToolsAux, runSeq, h1, h2]
      rw [ihh.2 n, h2, lookup_setKey]
      simp only [List.reverse_cons, lookup_append_ir]
      cases hx : ps.reverse.lookup n
      · by_cases hn : n = hd
        · subst hn
          simp [hx, Option.orElse, List.lookup_cons]
        · simp [hx, Option.orElse, List.lookup_cons, beq_false_of_ne hn, hn]
      · simp [hx, Option.orElse]

/-- C6: installMultipleTools runs installTool once per input name,
sequentially and independently (its final world equals that of the sequential
trace, whose entries are keyed by the input names in order), and every input
name is a key of the returned mapping, bound to the result of that name's
last run (later duplicate runs overwrite earlier ones). -/
theorem installMultipleTools_spec (env : Env) (platform : String)
    (names : List String) (w : World) :
    (installMultipleTools env platform names w).2 = (runSeq env platform names w).2
    ∧ (runSeq env platform names w).1.map Prod.fst = names
    ∧ (∀ n, (installMultipleTools env platform names w).1.lookup n
        = (runSeq env platform names w).1.reverse.lookup n)
    ∧ (∀ n, n ∈ names → ((installMultipleTools env platform names w).1.lookup n).isSome = true) := by
  have haux := installMultipleToolsAux_spec env platform names [] w
  have hfst : ∀ (l : List String) (w0 : World),
      (runSeq env platform l w0).1.map Prod.fst = l := by
    intro l
    induction l with
    | nil => intro w0; simp [runSeq]
    | cons hd tl ih =>
      intro w0
      rcases h1 : installTool env platform hd w0 with ⟨r, w1⟩
      rcases h2 : runSeq env platform tl w1 with ⟨ps, w2⟩
      have := ih w1
      rw [h2] at this
      simp [runSeq, h1, h2, this]
    -- end of inner induction
  have hlook : ∀ n, (installMultipleTools env platform names w).1.lookup n
      = (runSeq env platform names w).1.reverse.lookup n := by
    intro n
    have h2 := haux.2 n
    simp only [installMultipleTools]
    rw [h2]
    cases hx : (runSeq env platform names w).1.reverse.lookup n <;>
      simp [hx, Option.orElse]
  refine ⟨haux.1, hfst names w, hlook, ?_⟩
  intro n hn
  rw [hlook n]
  apply lookup_isSome_of_mem
  rw [List.map_reverse, List.mem_reverse, hfst names w]
  exact hn

/-- Witness for C6: a batch with a failing middle name and a duplicated name
still has every input name as a key of the result. -/
theorem installMultipleTools_spec_witness :
    "git" ∈ ["git", "zz", "git"]
    ∧ ((installMultipleTools (fun _ _ => ⟨"ok", "", true, none⟩) "linux"
        ["git", "zz", "git"] ⟨0, [], none⟩).1.lookup "git").isSome = true :=
  ⟨by decide, (installMultipleTools_spec (fun _ _ => ⟨"ok", "", true, none⟩) "linux"
    ["git", "zz", "git"] ⟨0, [], none⟩).2.2.2 "git" (by decide)⟩

/-- Helper for C8: finding a task's entry in a completed-task list keyed by
task index. -/
theorem find_task_entry (f : Nat → ToolStatus) :
    ∀ (l : List Nat) (i : Nat), i ∈ l →
    (l.map (fun j => (j, f j))).find? (fun p => p.1 == i) = some (i, f i) := by
  intro l
  induction l with
  | nil => intro i h; cases h
  | cons j t ih =>
    intro i h
    by_cases hj : j = i
    · subst hj
      simp [List.find?]
    · have hmem : i ∈ t := by
        rcases List.mem_cons.mp h with h1 | h1
        · exact absurd h1.symm hj
        · exact h1
      rw [List.map_cons, List.find?_cons_of_neg _ (by simp [hj])]
      exact ih i hmem

/-- C8: checkAllTools returns exactly one ToolStatus per catalog entry, in
catalog-definition order (the 8 cataloged names), and reassembling the
concurrently completed probe tasks from any completion order (any permutation
of the task indices) yields exactly that list. -/
theorem checkAllTools_spec (env : Nat → String → CommandResult) (sched : List Nat)
    (hperm : sched.Perm (List.range 8)) :
    (checkAllTools env).length = 8
    ∧ (checkAllTools env).map ToolStatus.name = getAllToolNames
    ∧ assemble (runScheduled env getAllToolNames sched) 8 = (checkAllTools env).map some := by
  refine ⟨rfl, rfl, ?_⟩
  have hstep : ∀ i ∈ List.range 8,
      ((runScheduled env getAllToolNames sched).find? (fun p => p.1 == i)).map Prod.snd
        = some (checkToolInstalled (env i) (getAllToolNames.getD i "")) := by
    intro i hi
    have hmem : i ∈ sched := hperm.mem_iff.mpr hi
    rw [runScheduled,
      find_task_entry (fun j => checkToolInstalled (env j) (getAllToolNames.getD j "")) sched i hmem]
    rfl
  have : assemble (runScheduled env getAllToolNames sched) 8
      = (List.range 8).map
          (fun i => some (checkToolInstalled (env i) (getAllToolNames.getD i ""))) := by
    exact List.map_congr_left hstep
  rw [this]
  rfl

/-- Witness for C8: a reversed completion order still reassembles to the
catalog-ordered status list. -/
theorem checkAllTools_spec_witness :
    (checkAllTools (fun _ _ => ⟨"", "", false, none⟩)).length = 8 :=
  (checkAllTools_spec (fun _ _ => ⟨"", "", false, none⟩) (List.range 8).reverse
    (List.reverse_perm _)).1

/-- Helper for C2: when every alternative command fails, the loop falls
through, having executed them all. -/
theorem tryAlternatives_allFail (env : Env) :
    ∀ (cmds : List String) (w : World), allFailB env cmds w = true →
    tryAlternatives env cmds w = (none, execList env cmds w) := by
  intro cmds
  induction cmds with
  | nil =>
    intro w _
    simp [tryAlternatives, execList]
  | cons c cs ih =>
    intro w h
    simp only [allFailB, Bool.and_eq_true] at h
    have hs : (env w.k c).success = false := by simpa using h.1
    simp [tryAlternatives, executeCommand, hs, ih _ h.2, execList]

/-- Helper for C2: the alternative-command loop stops at the first success,
returning its captured stdout, after executing exactly the failing prefix and
the succeeding command. -/
theorem tryAlternatives_firstSuccess (env : Env) :
    ∀ (pre : List String) (a : String) (post : List String) (w : World),
    allFailB env pre w = true →
    (env (execList env pre w).k a).success = true →
    tryAlternatives env (pre ++ a :: post) w
      = (some (env (execList env pre w).k a).stdout, nextW (execList env pre w) a) := by
  intro pre
  induction pre with
  | nil =>
    intro a post w _ hs
    simp only [List.nil_append, execList] at hs ⊢
    simp [tryAlternatives, executeCommand, hs]
  | cons c cs ih =>
    intro a post w h hs
    simp only [allFailB, Bool.and_eq_true] at h
    have hc : (env w.k c).success = false := by simpa using h.1
    have hrec := ih a post (nextW w c) h.2 hs
    simp only [List.cons_append, tryAlternatives, executeCommand, hc]
    simp only [execList, executeCommand]
    exact hrec

/-- C2: in installTool's install step, when the primary install command fails,
the alternatives are tried in order and the loop stops at the first success:
if some alternative succeeds, the run continues into the post-install tail
with that alternative's captured stdout as the result details (any successful
final result carries exactly those details); if the primary and every
alternative fail, the result is a failure whose details carry the primary
attempt's captured error text, not any alternative's. -/
theorem installTool_fallback_spec (env : Env) (platform toolName : String)
    (cfg : ToolConfig) (pm : PackageManagerInfo) (im : InstallMethod)
    (w w1 w2 w3 : World) (r0 : CommandResult)
    (hcfg : getToolConfig toolName = some cfg)
    (hnot : commandExists env cfg.commandToCheck w = (false, w1))
    (hpm : detectPackageManager env platform w1 = (some pm, w2))
    (him : cfg.installMethods.lookup (pmName pm.name) = some im)
    (hprim : executeCommand env (pm.installCmd ++ " " ++ im.packageName) w2 = (r0, w3))
    (hfail : r0.success = false) :
    (∀ alts, im.alternativeCommands = some alts → allFailB env alts w3 = true →
      installTool env platform toolName w
        = ({ success := false
             message := "Failed to install " ++ cfg.displayName
             details := some (jsOr r0.error r0.stderr) }, execList env alts w3))
    ∧ (∀ pre a post, im.alternativeCommands = some (pre ++ a :: post) →
        allFailB env pre w3 = true →
        (env (execList env pre w3).k a).success = true →
        installTool env platform toolName w
          = afterInstall env cfg im (env (execList env pre w3).k a).stdout
              (nextW (execList env pre w3) a)
        ∧ (∀ d wx, (afterInstall env cfg im d wx).1.success = true →
            (afterInstall env cfg im d wx).1.details = some d)) := by
  constructor
  · intro alts halts hall
    have hta := tryAlternatives_allFail env alts w3 hall
    simp [installTool, hcfg, hnot, hpm, him, hprim, hfail, halts, hta]
  · intro pre a post halts hall hsucc
    have hta := tryAlternatives_firstSuccess env pre a post w3 hall hsucc
    constructor
    · simp [installTool, hcfg, hnot, hpm, him, hprim, hfail, halts, hta]
    · intro d wx h
      rcases h1 : shellStep cfg (postWorld env im wx) with ⟨nr, w6⟩
      rcases h2 : commandExists env cfg.commandToCheck w6 with ⟨v, w7⟩
      simp only [afterInstall, h1, h2] at h ⊢
      by_cases hv : (v || nr) = true
      · simp [hv]
      · simp [hv] at h

/-- Witness for C2: installing nodejs via apt where the primary command and
the first alternative fail and the second alternative succeeds; the final
result is a success carrying the second alternative's stdout. -/
theorem installTool_fallback_spec_witness :
    installTool envAlt "linux" "nodejs" ⟨0, [], none⟩
      = ({ success := true
           message := "Node.js installed successfully"
           details := some "altok"
           needsRestart := some false },
         ⟨6, [ "which node", "which apt-get", "sudo apt-get install -y nodejs npm"
             , "curl -fsSL https://deb.nodesource.com/setup_lts.x | sudo -E bash -"
             , "sudo apt-get install -y nodejs", "which node"], none⟩) :=
  ((installTool_fallback_spec envAlt "linux" "nodejs" nodejsConfig
      { aptInfo with available := true }
      { packageManager := .apt
        packageName := "nodejs npm"
        alternativeCommands := some
          [ "curl -fsSL https://deb.nodesource.com/setup_lts.x | sudo -E bash -"
          , "sudo apt-get install -y nodejs" ] }
      ⟨0, [], none⟩
      ⟨1, ["which node"], none⟩
      ⟨2, ["which node", "which apt-get"], none⟩
      ⟨3, ["which node", "which apt-get", "sudo apt-get install -y nodejs npm"], none⟩
      ⟨"", "errtext", false, some "boom"⟩
      rfl rfl rfl rfl rfl rfl).2
    ["curl -fsSL https://deb.nodesource.com/setup_lts.x | sudo -E bash -"]
    "sudo apt-get install -y nodejs" []
    rfl rfl rfl).1.trans (by decide)

/-- C7: after the install commands succeeded, installTool's final
verification step returns success exactly when the re-probe of the verify
command reports true or the shell-configuration step reported a write;
otherwise it returns a soft failure whose message (distinct from the hard
install-failure message) explains that the tool may need a fresh shell. -/
theorem installTool_verification_spec (env : Env) (platform toolName : String)
    (cfg : ToolConfig) (pm : PackageManagerInfo) (im : InstallMethod)
    (w w1 w2 w3 w6 w7 : World) (r0 : CommandResult) (nr v : Bool)
    (hcfg : getToolConfig toolName = some cfg)
    (hnot : commandExists env cfg.commandToCheck w = (false, w1))
    (hpm : detectPackageManager env platform w1 = (some pm, w2))
    (him : cfg.installMethods.lookup (pmName pm.name) = some im)
    (hprim : executeCommand env (pm.installCmd ++ " " ++ im.packageName) w2 = (r0, w3))
    (hok : r0.success = true)
    (hshell : shellStep cfg (postWorld env im w3) = (nr, w6))
    (hver : commandExists env cfg.commandToCheck w6 = (v, w7)) :
    ((v || nr) = true →
      installTool env platform toolName w
        = ({ success := true
             message := cfg.displayName ++ " installed successfully"
             details := some r0.stdout
             needsRestart := some nr }, w7))
    ∧ (v = false → nr = false →
        installTool env platform toolName w
          = ({ success := false
               message := cfg.displayName ++ " installation completed but verification failed"
               details := some "The tool may require a shell restart to be available"
               needsRestart := some true }, w7)
        ∧ cfg.displayName ++ " installation completed but verification failed"
            ≠ "Failed to install " ++ cfg.displayName) := by
  have hred : installTool env platform toolName w = afterInstall env cfg im r0.stdout w3 := by
    simp [installTool, hcfg, hnot, hpm, him, hprim, hok]
  constructor
  · intro hv
    rw [hred]
    simp only [afterInstall, hshell, hver]
    simp [hv]
  · intro hv hnr
    constructor
    · rw [hred]
      simp only [afterInstall, hshell, hver]
      simp [hv, hnr]
    · intro heq
      have hlen := congrArg String.length heq
      rw [String.length_append, String.length_append] at hlen
      have e1 : (" installation completed but verification failed" : String).length = 47 := rfl
      have e2 : ("Failed to install " : String).length = 18 := rfl
      rw [e1, e2] at hlen
      omega

/-- Witness for C7: installing git via apt where the install command succeeds
and the final re-probe verifies, yielding a success result. -/
theorem installTool_verification_spec_witness :
    installTool envGit "linux" "git" ⟨0, [], none⟩
      = ({ success := true
           message := "Git installed successfully"
           details := some "x"
           needsRestart := some false },
         ⟨4, ["which git", "which apt-get", "sudo apt-get install -y git", "which git"],
          none⟩) :=
  (installTool_verification_spec envGit "linux" "git" gitConfig
    { aptInfo with available := true }
    { packageManager := .apt, packageName := "git" }
    ⟨0, [], none⟩
    ⟨1, ["which git"], none⟩
    ⟨2, ["which git", "which apt-get"], none⟩
    ⟨3, ["which git", "which apt-get", "sudo apt-get install -y git"], none⟩
    ⟨3, ["which git", "which apt-get", "sudo apt-get install -y git"], none⟩
    ⟨4, ["which git", "which apt-get", "sudo apt-get install -y git", "which git"], none⟩
    ⟨"x", "", true, none⟩ false true
    rfl rfl rfl rfl rfl rfl rfl rfl).1 rfl

end DevEnv
